import Mathlib

/-!
Verification of the Climate_Platform point-data retrieval and ensemble
aggregation pipeline (src/temperature_analyzer.py) against its
specification.

Shallow embedding conventions:
* Temperature values travel as exact rationals (`ℚ`); a JSON `null` /
  pandas `NaN` entry is `none`.  The pandas standard-deviation column is an
  irrational real in general, so the DataFrame carries the squared value
  (`varCol`) and the `CMIP6_std` / `CMIP6_upper` / `CMIP6_lower` columns are
  read out by `DF.stdCol`, `DF.upperCol`, `DF.lowerCol` over `ℝ`.
* The remote Earth Engine service is a `Gateway` value: the raw Kelvin
  series the reductions would return at the queried point, and the distinct
  model list for the configured emissions scenario.
* Fallible pandas operations return `Except String`; the error strings name
  the `ValueError` pandas raises.
-/

attribute [local semireducible] Rat.add Rat.sub Rat.mul Rat.inv Rat.ofScientific

namespace ClimatePlatform

/-- A monthly series exactly as it appears in the JSON payloads produced by
`_calculate_monthly_average(...).getInfo()`: one entry per image, `none` for
a JSON null. -/
abbrev Series := List (Option ℚ)

/-- The remote data gateway as seen from one queried point: the raw Kelvin
values of the filtered historical (GLDAS) collection, the distinct CMIP6
model identifiers for the configured emissions scenario
(`filtered_cmip6.distinct('model').aggregate_array('model')`, line 90), and
the raw Kelvin values of each model's filtered collection. -/
structure Gateway where
  gldasRaw : Series
  models : List String
  modelRaw : String → Series

/-- Line 122 of `_calculate_monthly_average`:
`temp_c = ee.Number(value).subtract(273.15)`. -/
def kelvinToCelsius (v : ℚ) : ℚ := v - 273.15

/-- `TemperatureAnalyzer._calculate_monthly_average` (lines 111-129): maps
every image of the collection to its spatial mean at the point, converted
from Kelvin to Celsius, and aggregates the results into one array (in
collection order). -/
def calculateMonthlyAverage (raw : Series) : Series :=
  raw.map (Option.map kelvinToCelsius)

/-- Python dict assignment `d[k] = v`: replaces the value at an existing
key, otherwise appends the pair (insertion order preserved). -/
def dictInsert {α : Type} (d : List (String × α)) (k : String) (v : α) :
    List (String × α) :=
  if (d.lookup k).isSome then
    d.map (fun p => if p.1 = k then (k, v) else p)
  else d ++ [(k, v)]

/-- The dictionary returned by `TemperatureAnalyzer.get_point_data`
(lines 100-109): `gldas`, the per-model dictionary `cmip6_models`, and the
metadata block. -/
structure PointResult where
  gldas : Series
  cmip6_models : List (String × Series)
  meta_lat : ℚ
  meta_lon : ℚ
  meta_scenario : String
  meta_models : List String

/-- `TemperatureAnalyzer.get_point_data` (lines 76-109).  Note line 78:
`cache_key` is computed by `_generate_cache_key` and then never read, so no
cache is consulted; the body unconditionally queries the gateway.  The
model list (line 90) seeds both the `cmip6_by_model` loop (lines 93-98,
dict insertion order) and `metadata['models']` (line 107). -/
def getPointData (gw : Gateway) (lat lon : ℚ) (scen : String) : PointResult :=
  let models := gw.models
  let cmip6_by_model :=
    models.foldl (fun d m => dictInsert d m (calculateMonthlyAverage (gw.modelRaw m))) []
  { gldas := calculateMonthlyAverage gw.gldasRaw
    cmip6_models := cmip6_by_model
    meta_lat := lat
    meta_lon := lon
    meta_scenario := scen
    meta_models := models }

/-- One remote round-trip issued by `get_point_data`: the
`distinct('model')...getInfo()` call of line 90, the `gldas_monthly.getInfo()`
call of line 101, and one `data.getInfo()` per model at line 102. -/
inductive RemoteQuery where
  | distinctModels
  | gldasInfo
  | modelInfo (m : String)
deriving DecidableEq

/-- The remote queries one invocation of `get_point_data` issues, in
program order.  The list is built unconditionally: the body never consults
a cache (the `cache_key` of line 78 is dead), so it is the same on every
call with the same analyzer state. -/
def getPointDataLog (gw : Gateway) : List RemoteQuery :=
  RemoteQuery.distinctModels :: RemoteQuery.gldasInfo :: gw.models.map RemoteQuery.modelInfo

/-- The remote queries issued by two successive `get_point_data` calls with
identical parameters on one analyzer: `get_point_data` keeps no
memoisation state (the `lru_cache` sits on `get_point_data_cached`, which
`get_point_data` never calls), so the second call issues exactly the same
queries as the first. -/
def getPointDataTwiceLogs (gw : Gateway) : List RemoteQuery × List RemoteQuery :=
  (getPointDataLog gw, getPointDataLog gw)

/-- The part of the `get_point_data` result that
`format_data_for_plotting` reads (`raw_data['gldas']`,
`raw_data['cmip6_models']`, lines 144 and 148). -/
structure PointData where
  gldas : Series
  cmip6_models : List (String × Series)
deriving DecidableEq

/-- Projection of a full retrieval result onto the fields the plotting
formatter consumes. -/
def PointResult.toPointData (r : PointResult) : PointData :=
  ⟨r.gldas, r.cmip6_models⟩

/-- Number of entries of `pd.date_range(start=f"{sy}-01-01",
end=f"{ey}-12-31", freq='M')` (lines 135-139): the month-end dates from
`sy`-01 through `ey`-12, so `12 * (ey - sy + 1)` of them (empty when
`ey < sy`). -/
def numMonths (sy ey : Nat) : Nat := 12 * (ey + 1 - sy)

/-- The canonical month axis as (year, month) pairs, in order. -/
def monthAxis (sy ey : Nat) : List (Nat × Nat) :=
  (List.range (numMonths sy ey)).map (fun k => (sy + k / 12, k % 12 + 1))

/-- pandas `DataFrame.mean(axis=1)` over one row: skips missing entries,
returns `NaN` (here `none`) when no entry is present, else the sum of the
present entries divided by their count. -/
def nanMean (xs : List (Option ℚ)) : Option ℚ :=
  let s := xs.foldl
    (fun (acc : ℚ × Nat) x =>
      match x with
      | none => acc
      | some v => (acc.1 + v, acc.2 + 1)) (0, 0)
  if s.2 = 0 then none else some (s.1 / (s.2 : ℚ))

/-- pandas `DataFrame.std(axis=1)` over one row, squared: the default
`ddof=1` sample variance of the present entries, `NaN` (here `none`) when
fewer than two are present. -/
def nanSampleVar (xs : List (Option ℚ)) : Option ℚ :=
  match nanMean xs with
  | none => none
  | some mu =>
    let s := xs.foldl
      (fun (acc : ℚ × Nat) x =>
        match x with
        | none => acc
        | some v => (acc.1 + (v - mu) ^ 2, acc.2 + 1)) (0, 0)
    if s.2 < 2 then none else some (s.1 / ((s.2 - 1 : Nat) : ℚ))

/-- Row `i` of the model columns (`df[cmip6_cols]`, line 152): one entry
per model column, `none` for a missing cell. -/
def rowOpts (cols : List (String × Series)) (i : Nat) : List (Option ℚ) :=
  cols.map (fun c => c.2.getD i none)

/-- The non-missing model values of row `i` (what pandas' `skipna`
statistics actually aggregate). -/
def presentVals (cols : List (String × Series)) (i : Nat) : List ℚ :=
  (rowOpts cols i).filterMap id

/-- The arithmetic mean, as the spec words it. -/
def arithMean (xs : List ℚ) : ℚ := xs.sum / (xs.length : ℚ)

/-- The textbook sample (ddof = 1) variance, as the spec words the squared
standard deviation. -/
def sampleVariance (xs : List ℚ) : ℚ :=
  ((xs.map (fun x => (x - arithMean xs) ^ 2)).sum) / ((xs.length - 1 : Nat) : ℚ)

/-- The Aggregated Table built by `format_data_for_plotting`
(lines 131-158): the `date` axis, the `GLDAS` column, the `CMIP6_<model>`
columns, the `CMIP6_mean` column and the squared `CMIP6_std` column (the
std, upper and lower columns are read out below over `ℝ`). -/
structure DF where
  dates : List (Nat × Nat)
  gldasCol : Series
  modelCols : List (String × Series)
  meanCol : List (Option ℚ)
  varCol : List (Option ℚ)
deriving DecidableEq

/-- Line 149, `df[f'CMIP6_{model}'] = data[:len(dates)]`, for each model in
dict order: truncates the series to the axis length, and raises pandas'
`ValueError` if the truncated series is still shorter than the index. -/
def addModelCols (n : Nat) : List (String × Series) → Except String (List (String × Series))
  | [] => Except.ok []
  | (m, s) :: rest =>
    if (s.take n).length = n then
      (addModelCols n rest).map (fun cs => (m, s.take n) :: cs)
    else Except.error "ValueError: Length of values does not match length of index"

/-- `TemperatureAnalyzer.format_data_for_plotting` (lines 131-158).  The
DataFrame constructor of lines 142-145 raises a `ValueError` when the
truncated GLDAS list is shorter than the date axis; each model-column
assignment (line 149) raises when that model's truncated list is shorter;
otherwise the ensemble statistics of lines 151-156 are computed over
exactly the `CMIP6_`-prefixed model columns (the list `cmip6_cols` is
captured before the statistic columns are assigned). -/
def formatData (sy ey : Nat) (raw : PointData) : Except String DF :=
  if (raw.gldas.take (monthAxis sy ey).length).length = (monthAxis sy ey).length then
    match addModelCols (monthAxis sy ey).length raw.cmip6_models with
    | Except.error e => Except.error e
    | Except.ok cols =>
      Except.ok
        { dates := monthAxis sy ey
          gldasCol := raw.gldas.take (monthAxis sy ey).length
          modelCols := cols
          meanCol := (List.range (monthAxis sy ey).length).map
            (fun i => nanMean (rowOpts cols i))
          varCol := (List.range (monthAxis sy ey).length).map
            (fun i => nanSampleVar (rowOpts cols i)) }
  else Except.error "ValueError: All arrays must be of the same length"

/-- The `CMIP6_std` column (line 154): the square root of the sample
variance, missing where the variance is missing. -/
noncomputable def DF.stdCol (t : DF) : List (Option ℝ) :=
  t.varCol.map (Option.map (fun v => Real.sqrt ((v : ℚ) : ℝ)))

/-- The `CMIP6_upper` column (line 155): `CMIP6_mean + 2 * CMIP6_std`,
missing (NaN) as soon as either operand is. -/
noncomputable def DF.upperCol (t : DF) : List (Option ℝ) :=
  List.zipWith
    (fun m s =>
      match m, s with
      | some mu, some sd => some (((mu : ℚ) : ℝ) + 2 * sd)
      | _, _ => none)
    t.meanCol t.stdCol

/-- The `CMIP6_lower` column (line 156): `CMIP6_mean - 2 * CMIP6_std`,
missing (NaN) as soon as either operand is. -/
noncomputable def DF.lowerCol (t : DF) : List (Option ℝ) :=
  List.zipWith
    (fun m s =>
      match m, s with
      | some mu, some sd => some (((mu : ℚ) : ℝ) - 2 * sd)
      | _, _ => none)
    t.meanCol t.stdCol

/-! ### Cache keys: `_generate_cache_key` (lines 41-50)

`_generate_cache_key` rounds the coordinates to 4 decimal places, builds
`json.dumps(params, sort_keys=True)` (alphabetical keys `end_year`, `lat`,
`lon`, `scenario`, `start_year`, separators `", "` / `": "`) and returns
`hashlib.md5(key.encode()).hexdigest()`.  The MD5 algorithm (RFC 1321) is
embedded below over `Nat` bytes and 32-bit words; every word update ends
with `% 2^32`. -/

/-- The query parameters `get_point_data` fingerprints: coordinates,
analyzer year range and emissions scenario. -/
structure QueryParams where
  lat : ℚ
  lon : ℚ
  start_year : ℤ
  end_year : ℤ
  scenario : String

/-- Floor of a rational, computably (`Int.fdiv` is floor division). -/
def ratFloor (x : ℚ) : ℤ := Int.fdiv x.num (x.den : ℤ)

/-- Round to the nearest integer, ties to even: Python's `round` on the
exact value. -/
def roundHalfEven (x : ℚ) : ℤ :=
  let f := ratFloor x
  let r := x - (f : ℚ)
  if r < 1 / 2 then f
  else if 1 / 2 < r then f + 1
  else if f % 2 = 0 then f else f + 1

/-- Python `round(x, 4)`: round to 4 decimal digits, ties to even. -/
def round4 (x : ℚ) : ℚ := ((roundHalfEven (x * 10000) : ℚ)) / 10000

/-- Decimal rendering of a 4-decimal rational, matching `repr` of the
corresponding Python float (integer part, a point, 1-4 fractional digits
with trailing zeros stripped): `repr(-89.998) = "-89.998"`,
`repr(40.0) = "40.0"`. -/
def renderQ4 (q : ℚ) : String :=
  let k : ℤ := ratFloor (q * 10000)
  let a : Nat := k.natAbs
  let ip : Nat := a / 10000
  let fr : Nat := a % 10000
  let ds :=
    if fr % 10 ≠ 0 then [fr / 1000, fr / 100 % 10, fr / 10 % 10, fr % 10]
    else if fr / 10 % 10 ≠ 0 then [fr / 1000, fr / 100 % 10, fr / 10 % 10]
    else if fr / 100 % 10 ≠ 0 then [fr / 1000, fr / 100 % 10]
    else [fr / 1000]
  (if k < 0 then "-" else "") ++ Nat.repr ip ++ "." ++
    String.mk (ds.map (fun d => Char.ofNat (48 + d)))

/-- Decimal rendering of a Python int. -/
def renderInt (n : ℤ) : String :=
  if n < 0 then "-" ++ Nat.repr n.natAbs else Nat.repr n.toNat

/-- Line 49: `json.dumps(params, sort_keys=True)` for the parameter dict of
lines 44-48 — keys in alphabetical order with the default separators, the
coordinates already rounded. -/
def serializeParams (p : QueryParams) : String :=
  "\x7b\"end_year\": " ++ renderInt p.end_year ++
    ", \"lat\": " ++ renderQ4 (round4 p.lat) ++
    ", \"lon\": " ++ renderQ4 (round4 p.lon) ++
    ", \"scenario\": \"" ++ p.scenario ++
    "\", \"start_year\": " ++ renderInt p.start_year ++ "\x7d"

/-- UTF-8 bytes of an ASCII string (`key.encode()`; all serialized keys are
ASCII, where UTF-8 agrees with the code points). -/
def stringBytes (s : String) : List Nat := s.data.map Char.toNat

/-- 2^32, the MD5 word modulus. -/
def m32 : Nat := 4294967296

/-- One's complement of a 32-bit word. -/
def compl32 (x : Nat) : Nat := Nat.xor x 4294967295

/-- Left-rotation of a 32-bit word: the low bits shifted up modulo 2^32
plus the bits rotated around; below 2^32 whenever `x` is. -/
def rotl32 (x n : Nat) : Nat := (x * 2 ^ n) % m32 + x / 2 ^ (32 - n)

/-- The 64 MD5 sine-derived constants `T[i+1] = floor(2^32 * |sin(i+1)|)`
(RFC 1321). -/
def md5K : List Nat :=
  [3614090360, 3905402710, 606105819, 3250441966, 4118548399, 1200080426, 2821735955, 4249261313,
   1770035416, 2336552879, 4294925233, 2304563134, 1804603682, 4254626195, 2792965006, 1236535329,
   4129170786, 3225465664, 643717713, 3921069994, 3593408605, 38016083, 3634488961, 3889429448,
   568446438, 3275163606, 4107603335, 1163531501, 2850285829, 4243563512, 1735328473, 2368359562,
   4294588738, 2272392833, 1839030562, 4259657740, 2763975236, 1272893353, 4139469664, 3200236656,
   681279174, 3936430074, 3572445317, 76029189, 3654602809, 3873151461, 530742520, 3299628645,
   4096336452, 1126891415, 2878612391, 4237533241, 1700485571, 2399980690, 4293915773, 2240044497,
   1873313359, 4264355552, 2734768916, 1309151649, 4149444226, 3174756917, 718787259, 3951481745]

/-- The 64 MD5 per-round left-rotation amounts. -/
def md5S : List Nat :=
  [7, 12, 17, 22, 7, 12, 17, 22, 7, 12, 17, 22, 7, 12, 17, 22,
   5, 9, 14, 20, 5, 9, 14, 20, 5, 9, 14, 20, 5, 9, 14, 20,
   4, 11, 16, 23, 4, 11, 16, 23, 4, 11, 16, 23, 4, 11, 16, 23,
   6, 10, 15, 21, 6, 10, 15, 21, 6, 10, 15, 21, 6, 10, 15, 21]

/-- A little-endian 32-bit word from four bytes. -/
def leWord (b0 b1 b2 b3 : Nat) : Nat := b0 + 256 * b1 + 65536 * b2 + 16777216 * b3

/-- The 16 little-endian message words of a 64-byte chunk. -/
def chunkWords : List Nat → List Nat
  | b0 :: b1 :: b2 :: b3 :: rest => leWord b0 b1 b2 b3 :: chunkWords rest
  | _ => []

/-- Group a word list into the 16-word blocks of the successive 64-byte
chunks. -/
def toWordChunks : List Nat → List (List Nat)
  | w0 :: w1 :: w2 :: w3 :: w4 :: w5 :: w6 :: w7 ::
      w8 :: w9 :: w10 :: w11 :: w12 :: w13 :: w14 :: w15 :: rest =>
    [w0, w1, w2, w3, w4, w5, w6, w7, w8, w9, w10, w11, w12, w13, w14, w15] ::
      toWordChunks rest
  | _ => []

/-- The original bit length as 8 little-endian bytes. -/
def lengthBytesLE (n : Nat) : List Nat :=
  [n % 256, n / 256 % 256, n / 256 ^ 2 % 256, n / 256 ^ 3 % 256,
   n / 256 ^ 4 % 256, n / 256 ^ 5 % 256, n / 256 ^ 6 % 256, n / 256 ^ 7 % 256]

/-- MD5 padding: a `0x80` byte, zeros to 56 mod 64, then the 64-bit
little-endian bit length. -/
def md5Pad (msg : List Nat) : List Nat :=
  msg ++ [128] ++ List.replicate ((64 + 56 - (msg.length + 1) % 64) % 64) 0 ++
    lengthBytesLE (8 * msg.length)

/-- One MD5 round on the running state `(a, b, c, d)`. -/
def md5Round (M : List Nat) (st : Nat × Nat × Nat × Nat) (i : Nat) :
    Nat × Nat × Nat × Nat :=
  let a := st.1
  let b := st.2.1
  let c := st.2.2.1
  let d := st.2.2.2
  let f :=
    if i < 16 then Nat.lor (Nat.land b c) (Nat.land (compl32 b) d)
    else if i < 32 then Nat.lor (Nat.land d b) (Nat.land (compl32 d) c)
    else if i < 48 then Nat.xor (Nat.xor b c) d
    else Nat.xor c (Nat.lor b (compl32 d))
  let g :=
    if i < 16 then i
    else if i < 32 then (5 * i + 1) % 16
    else if i < 48 then (3 * i + 5) % 16
    else (7 * i) % 16
  let x := (f + a + md5K.getD i 0 + M.getD g 0) % m32
  (d, (b + rotl32 x (md5S.getD i 0)) % m32, b, c)

/-- Process the 16 message words of one 64-byte chunk: 64 rounds, then add
into the state; every component ends reduced modulo 2^32. -/
def processChunk (st : Nat × Nat × Nat × Nat) (M : List Nat) :
    Nat × Nat × Nat × Nat :=
  let r := (List.range 64).foldl (md5Round M) st
  ((st.1 + r.1) % m32, (st.2.1 + r.2.1) % m32,
   (st.2.2.1 + r.2.2.1) % m32, (st.2.2.2 + r.2.2.2) % m32)

/-- The MD5 initial state `(A, B, C, D)`. -/
def md5Init : Nat × Nat × Nat × Nat :=
  (1732584193, 4023233417, 2562383102, 271733878)

/-- The final MD5 state words of a byte message. -/
def md5Words (msg : List Nat) : Nat × Nat × Nat × Nat :=
  (toWordChunks (chunkWords (md5Pad msg))).foldl processChunk md5Init

/-- A lowercase hexadecimal digit. -/
def hexDigit (n : Nat) : Char :=
  if n < 10 then Char.ofNat (48 + n) else Char.ofNat (87 + n)

/-- Two lowercase hex characters of a byte. -/
def byteHex (b : Nat) : List Char := [hexDigit (b / 16 % 16), hexDigit (b % 16)]

/-- Eight hex characters of a state word, bytes little-endian first as in
`hexdigest()`. -/
def wordHex (w : Nat) : List Char :=
  byteHex (w % 256) ++ byteHex (w / 256 % 256) ++
    byteHex (w / 65536 % 256) ++ byteHex (w / 16777216 % 256)

/-- The 32-character hex digest of a final MD5 state. -/
def hexOfState (s : Nat × Nat × Nat × Nat) : String :=
  String.mk (wordHex s.1 ++ wordHex s.2.1 ++ wordHex s.2.2.1 ++ wordHex s.2.2.2)

/-- `hashlib.md5(bytes).hexdigest()`. -/
def md5Hex (msg : List Nat) : String := hexOfState (md5Words msg)

/-- `_generate_cache_key` (lines 41-50) as called by `get_point_data`
(lines 78-81): the MD5 hex digest of the canonical JSON serialization of
the rounded parameters. -/
def fingerprint (p : QueryParams) : String :=
  md5Hex (stringBytes (serializeParams p))

/-- Two parameter values agree on every fingerprinted field: coordinates
after rounding to 4 decimals, year range and scenario. -/
def sameKeyFields (p₁ p₂ : QueryParams) : Prop :=
  round4 p₁.lat = round4 p₂.lat ∧ round4 p₁.lon = round4 p₂.lon ∧
    p₁.start_year = p₂.start_year ∧ p₁.end_year = p₂.end_year ∧
    p₁.scenario = p₂.scenario

instance (p₁ p₂ : QueryParams) : Decidable (sameKeyFields p₁ p₂) := by
  unfold sameKeyFields; infer_instance

/-- The four final state words packed into one number below 2^128. -/
def packWords (s : Nat × Nat × Nat × Nat) : Nat :=
  s.1 + m32 * s.2.1 + m32 ^ 2 * s.2.2.1 + m32 ^ 3 * s.2.2.2

/-! ### `get_point_data_cached` (lines 52-57) fed a digest key

`get_point_data_cached` starts with `params = json.loads(cache_key)` and
then immediately subscripts `params['lon']` / `params['lat']` (line 57),
before any `filterBounds`/`getInfo` remote call.  A key produced by
`_generate_cache_key` is 32 lowercase hex characters; such a string is a
JSON value only when it matches the JSON number grammar (it cannot be an
object, array, string, `true`, `false` or `null`), in which case
`json.loads` returns a Python number and the subscript raises `TypeError`;
otherwise `json.loads` raises `json.JSONDecodeError`. -/

/-- ASCII decimal digit. -/
def isDigitCh (c : Char) : Bool := 48 ≤ c.toNat && c.toNat ≤ 57

/-- Count of leading decimal digits, and the remaining characters. -/
def spanDigits : List Char → Nat × List Char
  | [] => (0, [])
  | c :: cs =>
    if isDigitCh c then ((spanDigits cs).1 + 1, (spanDigits cs).2) else (0, c :: cs)

/-- The JSON integer part `0 | [1-9][0-9]*`: the remaining characters, or
`none` if absent. -/
def parseIntPart : List Char → Option (List Char)
  | [] => none
  | c :: cs =>
    if c = '0' then some cs
    else if isDigitCh c then some (spanDigits cs).2
    else none

/-- Whether a string is exactly a JSON number literal
(`-? (0|[1-9][0-9]*) ('.' [0-9]+)? ([eE] [+-]? [0-9]+)?`, RFC 8259), the
grammar `json.loads` accepts for a bare number. -/
def jsonNumberLit (s : String) : Bool :=
  let cs₀ := s.data
  let cs₁ := match cs₀ with
    | '-' :: t => t
    | _ => cs₀
  match parseIntPart cs₁ with
  | none => false
  | some r₁ =>
    let r₂ : Option (List Char) :=
      match r₁ with
      | '.' :: t => if (spanDigits t).1 = 0 then none else some (spanDigits t).2
      | _ => some r₁
    match r₂ with
    | none => false
    | some r₂' =>
      let r₃ : Option (List Char) :=
        match r₂' with
        | 'e' :: t =>
          let t' := match t with
            | '+' :: u => u
            | '-' :: u => u
            | _ => t
          if (spanDigits t').1 = 0 then none else some (spanDigits t').2
        | 'E' :: t =>
          let t' := match t with
            | '+' :: u => u
            | '-' :: u => u
            | _ => t
          if (spanDigits t').1 = 0 then none else some (spanDigits t').2
        | _ => some r₂'
      match r₃ with
      | none => false
      | some r₃' => r₃'.isEmpty

/-- Lowercase hexadecimal character. -/
def isHexChar (c : Char) : Bool :=
  (48 ≤ c.toNat && c.toNat ≤ 57) || (97 ≤ c.toNat && c.toNat ≤ 102)

/-- A 32-character lowercase hex string — the shape of every
`_generate_cache_key` result. -/
def isHex32 (s : String) : Bool := s.length == 32 && s.data.all isHexChar

/-- The exception `get_point_data_cached` raises when handed a digest key. -/
inductive PyError where
  | jsonDecodeError
  | typeError
deriving DecidableEq

/-- The observable outcome of `get_point_data_cached(key)` (lines 52-57)
on a hex-digest key: the exception raised, and the number of remote
queries issued before it (always 0, because `json.loads` at line 56 and the
`params['lon']` subscript at line 57 both run before any gateway call).
A digest that matches the JSON number grammar parses to a Python number
and the subscript raises `TypeError`; any other digest makes `json.loads`
itself raise `JSONDecodeError`. -/
def cachedCallOnDigest (key : String) : PyError × Nat :=
  (if jsonNumberLit key then PyError.typeError else PyError.jsonDecodeError, 0)

/-! ### Concrete inputs used by the claim theorems and witnesses -/

/-- A gateway realizing the end-to-end scenario of the spec: constant
273.15 K historical series and two models at constant 283.15 K and
293.15 K, 36 months of data each (2010-2012). -/
def gw3 : Gateway :=
  { gldasRaw := List.replicate 36 (some 273.15)
    models := ["model_a", "model_b"]
    modelRaw := fun m =>
      if m = "model_a" then List.replicate 36 (some 283.15)
      else List.replicate 36 (some 293.15) }

/-- The point dataset the pipeline produces for `gw3` at (40, -105). -/
def pd3 : PointData := (getPointData gw3 40 (-105) "ssp585").toPointData

/-- The aggregated table for `pd3` over 2010-2012: 36 rows, historical
constantly 0, ensemble mean constantly 15, squared ensemble std constantly
50. -/
def dfW3 : DF :=
  { dates := monthAxis 2010 2012
    gldasCol := List.replicate 36 (some 0)
    modelCols := [("model_a", List.replicate 36 (some 10)), ("model_b", List.replicate 36 (some 20))]
    meanCol := List.replicate 36 (some 15)
    varCol := List.replicate 36 (some 50) }

/-- A point dataset whose historical series is one month short of the
2010-2010 axis. -/
def pd5a : PointData :=
  ⟨List.replicate 11 (some 0), [("ma", List.replicate 12 (some 10))]⟩

/-- A point dataset whose model series is one month short of the 2010-2010
axis. -/
def pd5b : PointData :=
  ⟨List.replicate 12 (some 0), [("ma", List.replicate 11 (some 10))]⟩

/-- An empty-models point dataset with an empty historical series. -/
def pdC6 : PointData := ⟨[], []⟩

/-- An empty-models point dataset with a full-length historical series for
the 2010-2010 axis. -/
def pdE : PointData := ⟨List.replicate 12 (some 0), []⟩

/-- The aggregated table for `pdE`: no model columns, ensemble columns
entirely missing. -/
def dfE : DF :=
  { dates := monthAxis 2010 2010
    gldasCol := List.replicate 12 (some 0)
    modelCols := []
    meanCol := List.replicate 12 none
    varCol := List.replicate 12 none }

/-- Model columns shared by the two C4 witness datasets. -/
def mods4 : List (String × Series) :=
  [("ma", List.replicate 12 (some 10)), ("mb", List.replicate 12 (some 20))]

/-- C4 witness dataset: historical series constantly 0. -/
def pd4 : PointData := ⟨List.replicate 12 (some 0), mods4⟩

/-- C4 witness dataset with a different historical series (constantly 7). -/
def pd4b : PointData := ⟨List.replicate 12 (some 7), mods4⟩

/-- The aggregated table for `pd4`. -/
def df4 : DF :=
  { dates := monthAxis 2010 2010
    gldasCol := List.replicate 12 (some 0)
    modelCols := mods4
    meanCol := List.replicate 12 (some 15)
    varCol := List.replicate 12 (some 50) }

/-- The aggregated table for `pd4b`: only the historical column differs. -/
def df4b : DF :=
  { dates := monthAxis 2010 2010
    gldasCol := List.replicate 12 (some 7)
    modelCols := mods4
    meanCol := List.replicate 12 (some 15)
    varCol := List.replicate 12 (some 50) }

/-- Query parameters whose coordinates differ below the 4th decimal from
`p7b`'s. -/
def p7a : QueryParams :=
  { lat := 40.12351, lon := -105, start_year := 2010, end_year := 2050, scenario := "ssp585" }

/-- Query parameters rounding to the same 4-decimal coordinates as
`p7a`'s. -/
def p7b : QueryParams :=
  { lat := 40.12349, lon := -105, start_year := 2010, end_year := 2050, scenario := "ssp585" }

/-- A family of pairwise distinct query parameters (distinct year ranges). -/
def paramsFamily (n : Nat) : QueryParams :=
  { lat := 40, lon := -105, start_year := (n : ℤ), end_year := (n : ℤ) + 1, scenario := "ssp585" }

/-- Query parameters whose cache key is
`"51e45224268765703063645409903164"` — a JSON number literal. -/
def p9 : QueryParams :=
  { lat := -89.998, lon := -166.2315, start_year := 2010, end_year := 2050, scenario := "ssp585" }

deriving instance DecidableEq for Except

/-! ### General list helpers -/

theorem monthAxis_length (sy ey : Nat) : (monthAxis sy ey).length = numMonths sy ey := by
  simp [monthAxis]

theorem getD_map_of_lt {α β : Type} (g : α → β) (d : β) (d' : α) :
    ∀ (l : List α) (i : Nat), i < l.length → (l.map g).getD i d = g (l.getD i d') := by
  intro l
  induction l with
  | nil => intro i h; simp at h
  | cons a t ih =>
    intro i h
    cases i with
    | zero => simp
    | succ j =>
      simp only [List.map_cons, List.getD_cons_succ]
      exact ih j (by simpa using h)

theorem getD_range_of_lt (d : Nat) : ∀ (n i : Nat), i < n → (List.range n).getD i d = i := by
  intro n
  induction n with
  | zero => intro i h; omega
  | succ k ih =>
    intro i h
    rcases Nat.lt_or_ge i k with h' | h'
    · rw [List.range_succ, List.getD_append _ _ _ _ (by simpa using h')]
      exact ih i h'
    · have hik : i = k := by omega
      subst hik
      rw [List.range_succ, List.getD_append_right _ _ _ _ (by simp),
        List.length_range]
      simp

theorem getD_map_range {α : Type} (f : Nat → α) (d : α) {n i : Nat} (h : i < n) :
    ((List.range n).map f).getD i d = f i := by
  rw [getD_map_of_lt f d 0 _ i (by simpa using h), getD_range_of_lt 0 n i h]

theorem getD_zipWith_of_lt {α β γ : Type} (f : α → β → γ) (d : γ) (d₁ : α) (d₂ : β) :
    ∀ (l₁ : List α) (l₂ : List β) (i : Nat), i < l₁.length → i < l₂.length →
      (List.zipWith f l₁ l₂).getD i d = f (l₁.getD i d₁) (l₂.getD i d₂) := by
  intro l₁
  induction l₁ with
  | nil => intro l₂ i h; simp at h
  | cons a t ih =>
    intro l₂ i h₁ h₂
    cases l₂ with
    | nil => simp at h₂
    | cons b u =>
      cases i with
      | zero => simp
      | succ j =>
        simp only [List.zipWith_cons_cons, List.getD_cons_succ]
        exact ih u j (by simpa using h₁) (by simpa using h₂)

theorem zipWith_replicate_eq {α β γ : Type} (f : α → β → γ) (a : α) (b : β) :
    ∀ n : Nat, List.zipWith f (List.replicate n a) (List.replicate n b) =
      List.replicate n (f a b) := by
  intro n
  induction n with
  | zero => rfl
  | succ k ih => simp [List.replicate_succ, ih]

theorem map_const_range {α : Type} (x : α) (n : Nat) :
    (List.range n).map (fun _ => x) = List.replicate n x := by
  induction n with
  | zero => rfl
  | succ k ih => rw [List.range_succ, List.map_append, ih, List.replicate_succ']; rfl

/-! ### The pandas row statistics, characterized -/

theorem foldl_sum_count (xs : List (Option ℚ)) :
    ∀ (a : ℚ) (c : Nat),
      xs.foldl
        (fun (acc : ℚ × Nat) x =>
          match x with
          | none => acc
          | some v => (acc.1 + v, acc.2 + 1)) (a, c)
        = (a + (xs.filterMap id).sum, c + (xs.filterMap id).length) := by
  induction xs with
  | nil => intro a c; simp
  | cons x t ih =>
    intro a c
    cases x with
    | none => simpa using ih a c
    | some v =>
      have hf : List.filterMap id (some v :: t) = v :: List.filterMap id t := by simp
      simp only [List.foldl_cons]
      rw [ih, hf]
      simp only [List.sum_cons, List.length_cons, Prod.mk.injEq]
      constructor
      · ring
      · omega

theorem foldl_sqsum_count (mu : ℚ) (xs : List (Option ℚ)) :
    ∀ (a : ℚ) (c : Nat),
      xs.foldl
        (fun (acc : ℚ × Nat) x =>
          match x with
          | none => acc
          | some v => (acc.1 + (v - mu) ^ 2, acc.2 + 1)) (a, c)
        = (a + ((xs.filterMap id).map (fun v => (v - mu) ^ 2)).sum,
           c + (xs.filterMap id).length) := by
  induction xs with
  | nil => intro a c; simp
  | cons x t ih =>
    intro a c
    cases x with
    | none => simpa using ih a c
    | some v =>
      have hf : List.filterMap id (some v :: t) = v :: List.filterMap id t := by simp
      simp only [List.foldl_cons]
      rw [ih, hf]
      simp only [List.map_cons, List.sum_cons, List.length_cons, Prod.mk.injEq]
      constructor
      · ring
      · omega

theorem nanMean_eq (xs : List (Option ℚ)) :
    nanMean xs =
      if (xs.filterMap id).length = 0 then none
      else some (arithMean (xs.filterMap id)) := by
  unfold nanMean arithMean
  rw [foldl_sum_count]
  simp

theorem nanSampleVar_eq (xs : List (Option ℚ)) :
    nanSampleVar xs =
      if (xs.filterMap id).length < 2 then none
      else some (sampleVariance (xs.filterMap id)) := by
  unfold nanSampleVar
  rw [nanMean_eq]
  by_cases h0 : (xs.filterMap id).length = 0
  · simp only [h0, if_pos, if_true]
    rw [if_pos (by omega)]
  · rw [if_neg h0]
    simp only [foldl_sqsum_count, zero_add, Nat.zero_add]
    unfold sampleVariance
    rfl

/-! ### `formatData` inversion and construction -/

theorem addModelCols_ok_of_le {n : Nat} :
    ∀ {cols : List (String × Series)}, (∀ c ∈ cols, n ≤ c.2.length) →
      addModelCols n cols = Except.ok (cols.map (fun c => (c.1, c.2.take n))) := by
  intro cols
  induction cols with
  | nil => intro; rfl
  | cons c cs ih =>
    intro h
    have hc : (c.2.take n).length = n := by
      rw [List.length_take]
      exact Nat.min_eq_left (h c (by simp))
    unfold addModelCols
    rw [if_pos hc, ih (fun d hd => h d (by simp [hd]))]
    rfl

theorem addModelCols_keys {n : Nat} :
    ∀ {cols cols' : List (String × Series)},
      addModelCols n cols = Except.ok cols' →
      cols'.map Prod.fst = cols.map Prod.fst := by
  intro cols
  induction cols with
  | nil =>
    intro cols' h
    unfold addModelCols at h
    cases h
    rfl
  | cons c cs ih =>
    intro cols' h
    unfold addModelCols at h
    split at h
    · cases hrec : addModelCols n cs with
      | error e => rw [hrec] at h; cases h
      | ok cs' =>
        rw [hrec] at h
        cases h
        simp [ih hrec]
    · cases h

theorem formatData_eq_ok {sy ey : Nat} {raw : PointData} {t : DF}
    (h : formatData sy ey raw = Except.ok t) :
    ∃ cols, addModelCols (monthAxis sy ey).length raw.cmip6_models = Except.ok cols ∧
      t = { dates := monthAxis sy ey
            gldasCol := raw.gldas.take (monthAxis sy ey).length
            modelCols := cols
            meanCol := (List.range (monthAxis sy ey).length).map
              (fun i => nanMean (rowOpts cols i))
            varCol := (List.range (monthAxis sy ey).length).map
              (fun i => nanSampleVar (rowOpts cols i)) } := by
  unfold formatData at h
  split at h
  · split at h
    · cases h
    · cases h
      exact ⟨_, by assumption, rfl⟩
  · cases h

theorem formatData_ok_of_le {sy ey : Nat} {raw : PointData}
    (hg : numMonths sy ey ≤ raw.gldas.length)
    (hm : ∀ c ∈ raw.cmip6_models, numMonths sy ey ≤ c.2.length) :
    formatData sy ey raw = Except.ok
      { dates := monthAxis sy ey
        gldasCol := raw.gldas.take (numMonths sy ey)
        modelCols := raw.cmip6_models.map (fun c => (c.1, c.2.take (numMonths sy ey)))
        meanCol := (List.range (numMonths sy ey)).map
          (fun i => nanMean (rowOpts (raw.cmip6_models.map
            (fun c => (c.1, c.2.take (numMonths sy ey)))) i))
        varCol := (List.range (numMonths sy ey)).map
          (fun i => nanSampleVar (rowOpts (raw.cmip6_models.map
            (fun c => (c.1, c.2.take (numMonths sy ey)))) i)) } := by
  unfold formatData
  rw [monthAxis_length]
  rw [if_pos (by rw [List.length_take]; exact Nat.min_eq_left hg)]
  rw [addModelCols_ok_of_le hm]

/-! ### Python dict built by the `get_point_data` model loop -/

theorem lookup_eq_none_of_keys_ne {α : Type} (k : String) :
    ∀ (d : List (String × α)), (∀ p ∈ d, p.1 ≠ k) → d.lookup k = none := by
  intro d
  induction d with
  | nil => intro; rfl
  | cons p t ih =>
    intro h
    have hne : (k == p.1) = false := by
      have := h p (by simp)
      simp [beq_eq_false_iff_ne]
      exact fun hk => this hk.symm
    simp only [List.lookup, hne]
    exact ih (fun q hq => h q (by simp [hq]))

theorem lookup_append_none {α : Type} (k : String) {d₁ d₂ : List (String × α)}
    (h₁ : d₁.lookup k = none) (h₂ : d₂.lookup k = none) :
    (d₁ ++ d₂).lookup k = none := by
  induction d₁ with
  | nil => simpa using h₂
  | cons p t ih =>
    simp only [List.lookup, List.cons_append] at h₁ ⊢
    cases hb : (k == p.1) with
    | true => rw [hb] at h₁; cases h₁
    | false =>
      rw [hb] at h₁
      exact ih h₁

theorem foldl_dictInsert_eq_map (f : String → Series) :
    ∀ (ms : List String) (acc : List (String × Series)),
      ms.Nodup → (∀ m ∈ ms, acc.lookup m = none) →
      ms.foldl (fun d m => dictInsert d m (f m)) acc =
        acc ++ ms.map (fun m => (m, f m)) := by
  intro ms
  induction ms with
  | nil => intro acc _ _; simp
  | cons m t ih =>
    intro acc hnd hacc
    have hstep : dictInsert acc m (f m) = acc ++ [(m, f m)] := by
      unfold dictInsert
      rw [hacc m (by simp)]
      rfl
    have hnd' : t.Nodup := (List.nodup_cons.mp hnd).2
    have hnotin : m ∉ t := (List.nodup_cons.mp hnd).1
    simp only [List.foldl_cons, hstep]
    rw [ih (acc ++ [(m, f m)]) hnd' ?_]
    · simp
    · intro m' hm'
      refine lookup_append_none m' (hacc m' (by simp [hm'])) ?_
      refine lookup_eq_none_of_keys_ne m' [(m, f m)] ?_
      intro p hp
      simp only [List.mem_singleton] at hp
      subst hp
      intro hc
      have hmm : m = m' := hc
      subst hmm
      exact hnotin hm' 

theorem getPointData_cmip6_models (gw : Gateway) (lat lon : ℚ) (scen : String)
    (h : gw.models.Nodup) :
    (getPointData gw lat lon scen).cmip6_models =
      gw.models.map (fun m => (m, calculateMonthlyAverage (gw.modelRaw m))) := by
  show gw.models.foldl (fun d m => dictInsert d m (calculateMonthlyAverage (gw.modelRaw m))) [] =
    gw.models.map (fun m => (m, calculateMonthlyAverage (gw.modelRaw m)))
  rw [foldl_dictInsert_eq_map _ gw.models [] h (fun m _ => rfl)]
  rfl

theorem lookup_map_pair (f : String → Series) :
    ∀ (ms : List String), ms.Nodup → ∀ m ∈ ms,
      (ms.map (fun m' => (m', f m'))).lookup m = some (f m) := by
  intro ms
  induction ms with
  | nil => intro _ m hm; cases hm
  | cons a t ih =>
    intro hnd m hm
    rcases List.mem_cons.mp hm with rfl | hmt
    · simp [List.lookup]
    · have hne : (m == a) = false := by
        have : m ≠ a := by
          intro hc
          exact (List.nodup_cons.mp hnd).1 (hc ▸ hmt)
        simp [beq_eq_false_iff_ne]
        exact this
      simp only [List.map_cons, List.lookup, hne]
      exact ih (List.nodup_cons.mp hnd).2 m hmt

/-! ### MD5 digest range and hex shape -/

theorem processChunk_lt (st : Nat × Nat × Nat × Nat) (M : List Nat) :
    (processChunk st M).1 < m32 ∧ (processChunk st M).2.1 < m32 ∧
      (processChunk st M).2.2.1 < m32 ∧ (processChunk st M).2.2.2 < m32 := by
  have hp : 0 < m32 := by norm_num [m32]
  unfold processChunk
  exact ⟨Nat.mod_lt _ hp, Nat.mod_lt _ hp, Nat.mod_lt _ hp, Nat.mod_lt _ hp⟩

theorem foldl_processChunk_lt :
    ∀ (cs : List (List Nat)) (st : Nat × Nat × Nat × Nat),
      st.1 < m32 → st.2.1 < m32 → st.2.2.1 < m32 → st.2.2.2 < m32 →
      (cs.foldl processChunk st).1 < m32 ∧ (cs.foldl processChunk st).2.1 < m32 ∧
        (cs.foldl processChunk st).2.2.1 < m32 ∧ (cs.foldl processChunk st).2.2.2 < m32 := by
  intro cs
  induction cs with
  | nil => intro st h1 h2 h3 h4; exact ⟨h1, h2, h3, h4⟩
  | cons c t ih =>
    intro st _ _ _ _
    have h := processChunk_lt st c
    exact ih (processChunk st c) h.1 h.2.1 h.2.2.1 h.2.2.2

theorem md5Words_lt (msg : List Nat) :
    (md5Words msg).1 < m32 ∧ (md5Words msg).2.1 < m32 ∧
      (md5Words msg).2.2.1 < m32 ∧ (md5Words msg).2.2.2 < m32 := by
  unfold md5Words
  exact foldl_processChunk_lt _ md5Init (by norm_num [md5Init, m32])
    (by norm_num [md5Init, m32]) (by norm_num [md5Init, m32]) (by norm_num [md5Init, m32])

theorem packWords_lt {s : Nat × Nat × Nat × Nat}
    (h1 : s.1 < m32) (h2 : s.2.1 < m32) (h3 : s.2.2.1 < m32) (h4 : s.2.2.2 < m32) :
    packWords s < m32 ^ 4 := by
  unfold packWords m32 at *
  norm_num at *
  omega

theorem packWords_inj {s s' : Nat × Nat × Nat × Nat}
    (h1 : s.1 < m32) (h2 : s.2.1 < m32) (h3 : s.2.2.1 < m32) (h4 : s.2.2.2 < m32)
    (h1' : s'.1 < m32) (h2' : s'.2.1 < m32) (h3' : s'.2.2.1 < m32) (h4' : s'.2.2.2 < m32)
    (he : packWords s = packWords s') : s = s' := by
  obtain ⟨a, b, c, d⟩ := s
  obtain ⟨a', b', c', d'⟩ := s'
  unfold packWords m32 at *
  norm_num at *
  refine ⟨?_, ?_, ?_, ?_⟩ <;> omega

theorem isHexChar_hexDigit {n : Nat} (h : n < 16) : isHexChar (hexDigit n) = true := by
  interval_cases n <;> decide

theorem byteHex_all_hex (b : Nat) : (byteHex b).all isHexChar = true := by
  have h16 : 0 < 16 := by norm_num
  simp [byteHex, isHexChar_hexDigit (Nat.mod_lt _ h16)]

theorem wordHex_all_hex (w : Nat) : (wordHex w).all isHexChar = true := by
  simp [wordHex, List.all_append, byteHex_all_hex]

theorem wordHex_length (w : Nat) : (wordHex w).length = 8 := by
  simp [wordHex, byteHex]

theorem md5Hex_isHex32 (msg : List Nat) : isHex32 (md5Hex msg) = true := by
  unfold md5Hex hexOfState isHex32
  rw [Bool.and_eq_true]
  constructor
  · show (String.length _ == 32) = true
    simp [String.length, wordHex_length]
  · show List.all _ _ = true
    simp [List.all_append, wordHex_all_hex]

theorem DF_stdCol_length (t : DF) : (DF.stdCol t).length = t.varCol.length := by
  simp [DF.stdCol]

theorem DF_stdCol_getD (t : DF) {i : Nat} (h : i < t.varCol.length) :
    (DF.stdCol t).getD i none =
      Option.map (fun v => Real.sqrt ((v : ℚ) : ℝ)) (t.varCol.getD i none) :=
  getD_map_of_lt (Option.map (fun v => Real.sqrt ((v : ℚ) : ℝ))) none none t.varCol i h

theorem DF_upperCol_getD (t : DF) {i : Nat} (h₁ : i < t.meanCol.length)
    (h₂ : i < (DF.stdCol t).length) :
    (DF.upperCol t).getD i none =
      (match t.meanCol.getD i none, (DF.stdCol t).getD i none with
       | some mu, some sd => some (((mu : ℚ) : ℝ) + 2 * sd)
       | _, _ => none) := by
  unfold DF.upperCol
  exact getD_zipWith_of_lt _ none none none t.meanCol (DF.stdCol t) i h₁ h₂

theorem DF_lowerCol_getD (t : DF) {i : Nat} (h₁ : i < t.meanCol.length)
    (h₂ : i < (DF.stdCol t).length) :
    (DF.lowerCol t).getD i none =
      (match t.meanCol.getD i none, (DF.stdCol t).getD i none with
       | some mu, some sd => some (((mu : ℚ) : ℝ) - 2 * sd)
       | _, _ => none) := by
  unfold DF.lowerCol
  exact getD_zipWith_of_lt _ none none none t.meanCol (DF.stdCol t) i h₁ h₂

/-! ## Claim theorems -/

/-- C1 (code_bug): the claim says retrieving point data twice with
identical parameters invokes the remote-query producer exactly once, the
second call returning the cached result without issuing any remote query.
In the code, `get_point_data` computes `cache_key` (line 78) and never
reads it: no cache is consulted, and every call — the second identical one
included — issues the `distinct('model')` query, the GLDAS `getInfo` and
one `getInfo` per model, here 4 remote queries instead of the claimed 0. -/
theorem get_point_data_recomputes_every_call :
    getPointDataTwiceLogs gw3 = (getPointDataLog gw3, getPointDataLog gw3) ∧
    (getPointDataTwiceLogs gw3).2 =
      [RemoteQuery.distinctModels, RemoteQuery.gldasInfo,
       RemoteQuery.modelInfo "model_a", RemoteQuery.modelInfo "model_b"] ∧
    (getPointDataTwiceLogs gw3).2 ≠ [] := by
  exact ⟨rfl, by decide, by decide⟩

/-- C3 (corrected), counterexample: under the spec's end-to-end scenario
(gateway constant 273.15 K, two models at 283.15 K and 293.15 K, years
2010-2012) no aggregated table with 24 rows, historical column constantly
0.0, ensemble mean constantly 15.0 and std column constantly 5.0 is
produced: the date axis 2010-01..2012-12 has 36 rows. -/
theorem end_to_end_table_cex :
    ¬ (∃ t : DF, formatData 2010 2012 pd3 = Except.ok t ∧
        t.dates.length = 24 ∧
        t.gldasCol = List.replicate 24 (some (0 : ℚ)) ∧
        t.meanCol = List.replicate 24 (some (15 : ℚ)) ∧
        t.stdCol = List.replicate 24 (some (5 : ℝ))) := by
  rintro ⟨t, hok, h24, -⟩
  obtain ⟨cols, -, ht⟩ := formatData_eq_ok hok
  rw [ht] at h24
  simp only [monthAxis_length] at h24
  norm_num [numMonths] at h24

/-- C3 (corrected), amended: the aggregated table for the end-to-end
scenario has 36 rows (months 2010-01 through 2012-12), historical column
constantly 0.0, ensemble mean constantly 15.0, and ensemble standard
deviation constantly √50 ≈ 7.071 — pandas' sample (ddof = 1) formula, the
squared column being constantly 50.0 — not 24 rows and not the population
value 5.0. -/
theorem end_to_end_table_amended :
    formatData 2010 2012 pd3 = Except.ok dfW3 ∧
    dfW3.dates.length = 36 ∧
    dfW3.gldasCol = List.replicate 36 (some (0 : ℚ)) ∧
    dfW3.meanCol = List.replicate 36 (some (15 : ℚ)) ∧
    dfW3.varCol = List.replicate 36 (some (50 : ℚ)) ∧
    dfW3.stdCol = List.replicate 36 (some (Real.sqrt 50)) := by
  refine ⟨by decide, by decide, by decide, by decide, by decide, ?_⟩
  show dfW3.varCol.map _ = _
  have hv : dfW3.varCol = List.replicate 36 (some (50 : ℚ)) := by decide
  rw [hv, List.map_replicate]
  norm_num

/-- C5 (code_bug): the claim (with the spec) says a series shorter than the
month axis is padded with missing values rather than making the build fail.
The code instead raises: a short historical series fails the DataFrame
constructor (lines 142-145) and a short model series fails the column
assignment (line 149), both with a pandas `ValueError`. -/
theorem short_series_raises_value_error :
    formatData 2010 2010 pd5a =
      Except.error "ValueError: All arrays must be of the same length" ∧
    formatData 2010 2010 pd5b =
      Except.error "ValueError: Length of values does not match length of index" := by
  exact ⟨by decide, by decide⟩

/-- C6 (corrected), counterexample: the claim quantifies over every point
dataset with an empty model mapping, but a dataset whose historical series
is shorter than the month axis (here: empty, axis 2010-2010) raises the
DataFrame-constructor `ValueError` instead of building a table, so "raises
no exception for the historical column" fails. -/
theorem empty_models_cex :
    pdC6.cmip6_models = [] ∧
    formatData 2010 2010 pdC6 =
      Except.error "ValueError: All arrays must be of the same length" := by
  exact ⟨rfl, by decide⟩

/-- C8 (confirmed): constructing the aggregated table is deterministic and
idempotent — two constructions from the same point dataset (same analyzer
year range) agree field for field, the derived std/upper/lower columns
included; the embedding is a pure function of the dataset, there is no
post-construction mutation. -/
theorem format_deterministic :
    ∀ (sy ey : Nat) (pd₁ pd₂ : PointData), pd₁ = pd₂ →
      formatData sy ey pd₁ = formatData sy ey pd₂ ∧
      (formatData sy ey pd₁).map DF.stdCol = (formatData sy ey pd₂).map DF.stdCol ∧
      (formatData sy ey pd₁).map DF.upperCol = (formatData sy ey pd₂).map DF.upperCol ∧
      (formatData sy ey pd₁).map DF.lowerCol = (formatData sy ey pd₂).map DF.lowerCol := by
  intro sy ey pd₁ pd₂ h
  subst h
  exact ⟨rfl, rfl, rfl, rfl⟩

/-- Witness for C8 at the concrete end-to-end dataset. -/
theorem format_deterministic_witness :
    formatData 2010 2012 pd3 = formatData 2010 2012 pd3 ∧
    (formatData 2010 2012 pd3).map DF.stdCol = (formatData 2010 2012 pd3).map DF.stdCol ∧
    (formatData 2010 2012 pd3).map DF.upperCol = (formatData 2010 2012 pd3).map DF.upperCol ∧
    (formatData 2010 2012 pd3).map DF.lowerCol = (formatData 2010 2012 pd3).map DF.lowerCol :=
  format_deterministic 2010 2012 pd3 pd3 rfl

/-- C2 (confirmed): every raw gateway temperature value is converted from
Kelvin to Celsius by subtracting 273.15 exactly once, at ingestion
(`_calculate_monthly_average`, line 122): through the whole pipeline the
aggregated table's GLDAS column and every model column hold exactly the
raw values minus 273.15 — `format_data_for_plotting` only truncates, it
never converts again — and 273.15 maps to exactly 0 while 298.15 maps to
exactly 25. -/
theorem kelvin_to_celsius_once :
    ∀ (gw : Gateway) (lat lon : ℚ) (scen : String) (sy ey : Nat),
      gw.models.Nodup →
      numMonths sy ey ≤ gw.gldasRaw.length →
      (∀ m ∈ gw.models, numMonths sy ey ≤ (gw.modelRaw m).length) →
      ∃ t : DF, formatData sy ey (getPointData gw lat lon scen).toPointData = Except.ok t ∧
        t.gldasCol = (gw.gldasRaw.take (numMonths sy ey)).map (Option.map kelvinToCelsius) ∧
        t.modelCols = gw.models.map
          (fun m => (m, ((gw.modelRaw m).take (numMonths sy ey)).map
            (Option.map kelvinToCelsius))) ∧
        kelvinToCelsius 273.15 = 0 ∧ kelvinToCelsius 298.15 = 25 := by
  intro gw lat lon scen sy ey hnd hg hm
  have hpd : (getPointData gw lat lon scen).toPointData =
      ⟨calculateMonthlyAverage gw.gldasRaw,
       gw.models.map (fun m => (m, calculateMonthlyAverage (gw.modelRaw m)))⟩ := by
    unfold PointResult.toPointData
    rw [getPointData_cmip6_models gw lat lon scen hnd]
    rfl
  rw [hpd]
  have hg' : numMonths sy ey ≤ (calculateMonthlyAverage gw.gldasRaw).length := by
    simpa [calculateMonthlyAverage] using hg
  have hm' : ∀ c ∈ gw.models.map (fun m => (m, calculateMonthlyAverage (gw.modelRaw m))),
      numMonths sy ey ≤ c.2.length := by
    intro c hc
    obtain ⟨m, hmem, rfl⟩ := List.mem_map.mp hc
    simpa [calculateMonthlyAverage] using hm m hmem
  refine ⟨_, formatData_ok_of_le hg' hm', ?_, ?_, by decide, by decide⟩
  · show (calculateMonthlyAverage gw.gldasRaw).take (numMonths sy ey) = _
    simp [calculateMonthlyAverage, List.map_take]
  · show (gw.models.map (fun m => (m, calculateMonthlyAverage (gw.modelRaw m)))).map
      (fun c => (c.1, c.2.take (numMonths sy ey))) = _
    simp only [List.map_map]
    refine List.map_congr_left ?_
    intro m _
    simp [calculateMonthlyAverage, List.map_take]

/-- Witness for C2 at the end-to-end gateway, years 2010-2012. -/
theorem kelvin_to_celsius_once_witness :
    ∃ t : DF, formatData 2010 2012 (getPointData gw3 40 (-105) "ssp585").toPointData =
        Except.ok t ∧
      t.gldasCol = (gw3.gldasRaw.take (numMonths 2010 2012)).map (Option.map kelvinToCelsius) ∧
      t.modelCols = gw3.models.map
        (fun m => (m, ((gw3.modelRaw m).take (numMonths 2010 2012)).map
          (Option.map kelvinToCelsius))) ∧
      kelvinToCelsius 273.15 = 0 ∧ kelvinToCelsius 298.15 = 25 :=
  kelvin_to_celsius_once gw3 40 (-105) "ssp585" 2010 2012 (by decide) (by decide) (by decide)

/-- C10 (confirmed): for every retrieval, the metadata `models` list equals
the keys of the returned `cmip6_models` mapping, in order, and every
listed model maps to exactly its converted series — the reported model
list matches the per-model data actually returned (the gateway's model
list is deduplicated, `distinct('model')` at line 90). -/
theorem metadata_models_match :
    ∀ (gw : Gateway) (lat lon : ℚ) (scen : String), gw.models.Nodup →
      (getPointData gw lat lon scen).meta_models =
        (getPointData gw lat lon scen).cmip6_models.map Prod.fst ∧
      ∀ m ∈ (getPointData gw lat lon scen).meta_models,
        (getPointData gw lat lon scen).cmip6_models.lookup m =
          some (calculateMonthlyAverage (gw.modelRaw m)) := by
  intro gw lat lon scen h
  have hcm := getPointData_cmip6_models gw lat lon scen h
  have hmm : (getPointData gw lat lon scen).meta_models = gw.models := rfl
  constructor
  · rw [hcm, hmm]
    rw [List.map_map]
    exact (List.map_id gw.models).symm
  · intro m hm
    rw [hcm]
    exact lookup_map_pair _ gw.models h m (hmm ▸ hm)

/-- Witness for C10 at the end-to-end gateway. -/
theorem metadata_models_match_witness :
    (getPointData gw3 40 (-105) "ssp585").meta_models =
      (getPointData gw3 40 (-105) "ssp585").cmip6_models.map Prod.fst ∧
    ∀ m ∈ (getPointData gw3 40 (-105) "ssp585").meta_models,
      (getPointData gw3 40 (-105) "ssp585").cmip6_models.lookup m =
        some (calculateMonthlyAverage (gw3.modelRaw m)) :=
  metadata_models_match gw3 40 (-105) "ssp585" (by decide)

/-- C6 (corrected), amended: for every point dataset with an empty model
mapping whose historical series covers the month axis (without that length
hypothesis the build raises, see the counterexample), the table builds
with zero model columns and entirely missing ensemble mean/std/upper/lower
columns (`none`, not 0.0); and in any successfully built table, a month
whose model row has no present value gets missing mean/std/bounds, not
zero. -/
theorem empty_models_amended :
    (∀ (sy ey : Nat) (pd : PointData), pd.cmip6_models = [] →
      numMonths sy ey ≤ pd.gldas.length →
      ∃ t : DF, formatData sy ey pd = Except.ok t ∧ t.modelCols = [] ∧
        t.meanCol = List.replicate (numMonths sy ey) none ∧
        t.varCol = List.replicate (numMonths sy ey) none ∧
        t.stdCol = List.replicate (numMonths sy ey) none ∧
        t.upperCol = List.replicate (numMonths sy ey) none ∧
        t.lowerCol = List.replicate (numMonths sy ey) none) ∧
    (∀ (sy ey : Nat) (pd : PointData) (t : DF) (i : Nat),
      formatData sy ey pd = Except.ok t → i < numMonths sy ey →
      presentVals t.modelCols i = [] →
      t.meanCol.getD i none = none ∧ t.varCol.getD i none = none ∧
      t.stdCol.getD i none = none ∧ t.upperCol.getD i none = none ∧
      t.lowerCol.getD i none = none) := by
  constructor
  · intro sy ey pd hempty hlen
    have hm' : ∀ c ∈ pd.cmip6_models, numMonths sy ey ≤ c.2.length := by
      rw [hempty]
      intro c hc
      cases hc
    have hok := formatData_ok_of_le hlen hm'
    rw [hempty] at hok
    simp only [List.map_nil] at hok
    have hconst : (fun i => nanMean (rowOpts ([] : List (String × Series)) i)) =
        (fun _ : Nat => (none : Option ℚ)) := rfl
    have hconstv : (fun i => nanSampleVar (rowOpts ([] : List (String × Series)) i)) =
        (fun _ : Nat => (none : Option ℚ)) := rfl
    rw [hconst, hconstv, map_const_range] at hok
    refine ⟨_, hok, rfl, rfl, rfl, ?_, ?_, ?_⟩
    · show (List.replicate (numMonths sy ey) (none : Option ℚ)).map _ = _
      rw [List.map_replicate]
      rfl
    · show List.zipWith _ (List.replicate (numMonths sy ey) (none : Option ℚ))
        ((List.replicate (numMonths sy ey) (none : Option ℚ)).map _) = _
      rw [List.map_replicate, zipWith_replicate_eq]
    · show List.zipWith _ (List.replicate (numMonths sy ey) (none : Option ℚ))
        ((List.replicate (numMonths sy ey) (none : Option ℚ)).map _) = _
      rw [List.map_replicate, zipWith_replicate_eq]
  · intro sy ey pd t i hok hi hpv
    obtain ⟨cols, hac, ht⟩ := formatData_eq_ok hok
    subst ht
    have hpv' : (rowOpts cols i).filterMap id = [] := hpv
    have hi' : i < (monthAxis sy ey).length := by
      rw [monthAxis_length]
      exact hi
    have hmean : ((List.range (monthAxis sy ey).length).map
        (fun j => nanMean (rowOpts cols j))).getD i none = none := by
      rw [getD_map_range _ _ hi', nanMean_eq, hpv']
      rfl
    have hvar : ((List.range (monthAxis sy ey).length).map
        (fun j => nanSampleVar (rowOpts cols j))).getD i none = none := by
      rw [getD_map_range _ _ hi', nanSampleVar_eq, hpv']
      rfl
    have hstd : (DF.stdCol
        { dates := monthAxis sy ey
          gldasCol := pd.gldas.take (monthAxis sy ey).length
          modelCols := cols
          meanCol := (List.range (monthAxis sy ey).length).map
            (fun j => nanMean (rowOpts cols j))
          varCol := (List.range (monthAxis sy ey).length).map
            (fun j => nanSampleVar (rowOpts cols j)) }).getD i none = none := by
      unfold DF.stdCol
      rw [getD_map_of_lt _ _ none _ i (by simpa using hi'), hvar]
      rfl
    refine ⟨hmean, hvar, hstd, ?_, ?_⟩
    · unfold DF.upperCol
      rw [getD_zipWith_of_lt _ _ none none _ _ i (by simpa using hi')
        (by simp [DF.stdCol]; simpa using hi'), hmean, hstd]
    · unfold DF.lowerCol
      rw [getD_zipWith_of_lt _ _ none none _ _ i (by simpa using hi')
        (by simp [DF.stdCol]; simpa using hi'), hmean, hstd]

/-- Witness for C6 at the empty-models dataset `pdE` (2010-2010 axis) and
its table `dfE`, month 0. -/
theorem empty_models_amended_witness :
    (∃ t : DF, formatData 2010 2010 pdE = Except.ok t ∧ t.modelCols = [] ∧
      t.meanCol = List.replicate (numMonths 2010 2010) none ∧
      t.varCol = List.replicate (numMonths 2010 2010) none ∧
      t.stdCol = List.replicate (numMonths 2010 2010) none ∧
      t.upperCol = List.replicate (numMonths 2010 2010) none ∧
      t.lowerCol = List.replicate (numMonths 2010 2010) none) ∧
    (dfE.meanCol.getD 0 none = none ∧ dfE.varCol.getD 0 none = none ∧
      dfE.stdCol.getD 0 none = none ∧ dfE.upperCol.getD 0 none = none ∧
      dfE.lowerCol.getD 0 none = none) :=
  ⟨empty_models_amended.1 2010 2010 pdE (by decide) (by decide),
   empty_models_amended.2 2010 2010 pdE dfE 0 (by decide) (by decide) (by decide)⟩

/-- C4 (confirmed): per-row ensemble statistics are computed over the model
columns only — never the historical column: the mean is the arithmetic
mean of the non-missing model values of the month (missing when there are
none), the std is the sample standard deviation of the same set (missing
below two values), and upper/lower are mean ± 2·std; the model columns are
exactly the models, and changing only the historical series leaves every
ensemble column unchanged. -/
theorem ensemble_stats_model_columns_only :
    ∀ (sy ey : Nat) (g₁ g₂ : Series) (M : List (String × Series)) (t₁ t₂ : DF),
      formatData sy ey ⟨g₁, M⟩ = Except.ok t₁ →
      formatData sy ey ⟨g₂, M⟩ = Except.ok t₂ →
      (∀ i : Nat, i < numMonths sy ey →
        t₁.meanCol.getD i none =
          (if (presentVals t₁.modelCols i).length = 0 then none
           else some (arithMean (presentVals t₁.modelCols i))) ∧
        t₁.varCol.getD i none =
          (if (presentVals t₁.modelCols i).length < 2 then none
           else some (sampleVariance (presentVals t₁.modelCols i))) ∧
        t₁.stdCol.getD i none =
          (if (presentVals t₁.modelCols i).length < 2 then none
           else some (Real.sqrt ((sampleVariance (presentVals t₁.modelCols i) : ℚ) : ℝ))) ∧
        t₁.upperCol.getD i none =
          (if (presentVals t₁.modelCols i).length < 2 then none
           else some (((arithMean (presentVals t₁.modelCols i) : ℚ) : ℝ) +
             2 * Real.sqrt ((sampleVariance (presentVals t₁.modelCols i) : ℚ) : ℝ))) ∧
        t₁.lowerCol.getD i none =
          (if (presentVals t₁.modelCols i).length < 2 then none
           else some (((arithMean (presentVals t₁.modelCols i) : ℚ) : ℝ) -
             2 * Real.sqrt ((sampleVariance (presentVals t₁.modelCols i) : ℚ) : ℝ)))) ∧
      t₁.modelCols.map Prod.fst = M.map Prod.fst ∧
      t₁.meanCol = t₂.meanCol ∧ t₁.varCol = t₂.varCol ∧ t₁.stdCol = t₂.stdCol ∧
      t₁.upperCol = t₂.upperCol ∧ t₁.lowerCol = t₂.lowerCol := by
  intro sy ey g₁ g₂ M t₁ t₂ h₁ h₂
  obtain ⟨c₁, hac₁, ht₁⟩ := formatData_eq_ok h₁
  obtain ⟨c₂, hac₂, ht₂⟩ := formatData_eq_ok h₂
  have hcc : c₂ = c₁ := by
    rw [hac₁] at hac₂
    exact (Except.ok.inj hac₂).symm
  rw [hcc] at ht₂
  subst ht₁
  subst ht₂
  refine ⟨?_, addModelCols_keys hac₁, rfl, rfl, rfl, rfl, rfl⟩
  intro i hi
  have hi' : i < (monthAxis sy ey).length := by
    rw [monthAxis_length]
    exact hi
  have hmean : ((List.range (monthAxis sy ey).length).map
      (fun j => nanMean (rowOpts c₁ j))).getD i none =
      (if (presentVals c₁ i).length = 0 then none
       else some (arithMean (presentVals c₁ i))) := by
    rw [getD_map_range _ _ hi', nanMean_eq]
    rfl
  have hvar : ((List.range (monthAxis sy ey).length).map
      (fun j => nanSampleVar (rowOpts c₁ j))).getD i none =
      (if (presentVals c₁ i).length < 2 then none
       else some (sampleVariance (presentVals c₁ i))) := by
    rw [getD_map_range _ _ hi', nanSampleVar_eq]
    rfl
  refine ⟨hmean, hvar, ?_, ?_, ?_⟩
  · rw [DF_stdCol_getD]
    · dsimp only
      rw [hvar]
      by_cases hc : (presentVals c₁ i).length < 2
      · rw [if_pos hc, if_pos hc]
        rfl
      · rw [if_neg hc, if_neg hc]
        rfl
    · dsimp only
      simpa using hi'
  · rw [DF_upperCol_getD]
    · dsimp only
      rw [hmean, DF_stdCol_getD]
      · dsimp only
        rw [hvar]
        by_cases hc : (presentVals c₁ i).length < 2
        · by_cases h0 : (presentVals c₁ i).length = 0
          · rw [if_pos h0, if_pos hc, if_pos hc]
          · rw [if_neg h0, if_pos hc, if_pos hc]
            rfl
        · rw [if_neg (by omega : ¬ (presentVals c₁ i).length = 0), if_neg hc, if_neg hc]
          rfl
      · dsimp only
        simpa using hi'
    · dsimp only
      simpa using hi'
    · rw [DF_stdCol_length]
      dsimp only
      simpa using hi'
  · rw [DF_lowerCol_getD]
    · dsimp only
      rw [hmean, DF_stdCol_getD]
      · dsimp only
        rw [hvar]
        by_cases hc : (presentVals c₁ i).length < 2
        · by_cases h0 : (presentVals c₁ i).length = 0
          · rw [if_pos h0, if_pos hc, if_pos hc]
          · rw [if_neg h0, if_pos hc, if_pos hc]
            rfl
        · rw [if_neg (by omega : ¬ (presentVals c₁ i).length = 0), if_neg hc, if_neg hc]
          rfl
      · dsimp only
        simpa using hi'
    · dsimp only
      simpa using hi'
    · rw [DF_stdCol_length]
      dsimp only
      simpa using hi'

/-- Witness for C4 at the 2010-2010 datasets `pd4` / `pd4b` (same model
columns, different historical series) and their tables, month 0. -/
theorem ensemble_stats_model_columns_only_witness :
    (df4.meanCol.getD 0 none =
      (if (presentVals df4.modelCols 0).length = 0 then none
       else some (arithMean (presentVals df4.modelCols 0))) ∧
     df4.varCol.getD 0 none =
      (if (presentVals df4.modelCols 0).length < 2 then none
       else some (sampleVariance (presentVals df4.modelCols 0))) ∧
     df4.stdCol.getD 0 none =
      (if (presentVals df4.modelCols 0).length < 2 then none
       else some (Real.sqrt ((sampleVariance (presentVals df4.modelCols 0) : ℚ) : ℝ))) ∧
     df4.upperCol.getD 0 none =
      (if (presentVals df4.modelCols 0).length < 2 then none
       else some (((arithMean (presentVals df4.modelCols 0) : ℚ) : ℝ) +
         2 * Real.sqrt ((sampleVariance (presentVals df4.modelCols 0) : ℚ) : ℝ))) ∧
     df4.lowerCol.getD 0 none =
      (if (presentVals df4.modelCols 0).length < 2 then none
       else some (((arithMean (presentVals df4.modelCols 0) : ℚ) : ℝ) -
         2 * Real.sqrt ((sampleVariance (presentVals df4.modelCols 0) : ℚ) : ℝ)))) ∧
    df4.modelCols.map Prod.fst = mods4.map Prod.fst ∧
    df4.meanCol = df4b.meanCol ∧ df4.varCol = df4b.varCol ∧ df4.stdCol = df4b.stdCol ∧
    df4.upperCol = df4b.upperCol ∧ df4.lowerCol = df4b.lowerCol := by
  have h := ensemble_stats_model_columns_only 2010 2010
    (List.replicate 12 (some 0)) (List.replicate 12 (some 7)) mods4 df4 df4b
    (by decide) (by decide)
  exact ⟨h.1 0 (by decide), h.2⟩

/-- C7 (corrected), counterexample: the claim's "only if" direction —
distinct rounded fields always give distinct keys — cannot hold: the
parameter space is unbounded (any integer year range) while
`_generate_cache_key` digests into 2^128 values, so by pigeonhole two
parameter values with different `start_year` share a fingerprint, refuting
the biconditional as stated. -/
theorem fingerprint_iff_cex :
    ¬ (∀ p₁ p₂ : QueryParams, fingerprint p₁ = fingerprint p₂ ↔ sameKeyFields p₁ p₂) := by
  intro hall
  have hlt : ∀ k : Nat,
      packWords (md5Words (stringBytes (serializeParams (paramsFamily k)))) < m32 ^ 4 := by
    intro k
    have h := md5Words_lt (stringBytes (serializeParams (paramsFamily k)))
    exact packWords_lt h.1 h.2.1 h.2.2.1 h.2.2.2
  obtain ⟨m, n, hmn, hf⟩ := Finite.exists_ne_map_eq_of_infinite
    (fun k : Nat =>
      (⟨packWords (md5Words (stringBytes (serializeParams (paramsFamily k)))), hlt k⟩ :
        Fin (m32 ^ 4)))
  simp only [Fin.mk.injEq] at hf
  have hpw : packWords (md5Words (stringBytes (serializeParams (paramsFamily m)))) =
      packWords (md5Words (stringBytes (serializeParams (paramsFamily n)))) := hf
  have hwm := md5Words_lt (stringBytes (serializeParams (paramsFamily m)))
  have hwn := md5Words_lt (stringBytes (serializeParams (paramsFamily n)))
  have hw := packWords_inj hwm.1 hwm.2.1 hwm.2.2.1 hwm.2.2.2
    hwn.1 hwn.2.1 hwn.2.2.1 hwn.2.2.2 hpw
  have hfp : fingerprint (paramsFamily m) = fingerprint (paramsFamily n) := by
    unfold fingerprint md5Hex
    rw [hw]
  have hsame := (hall _ _).mp hfp
  have hsy : ((m : ℤ)) = (n : ℤ) := hsame.2.2.1
  exact hmn (by exact_mod_cast hsy)

/-- C7 (corrected), amended: parameter values agreeing on scenario, year
range and coordinates rounded to 4 decimals always fingerprint to the same
cache key (the canonical serialization is a function of exactly those
fields); the converse — any field change gives a different key — holds
only with overwhelming probability, as MD5 collision resistance, not as a
theorem (see the counterexample). -/
theorem fingerprint_same_fields :
    ∀ p₁ p₂ : QueryParams, sameKeyFields p₁ p₂ → fingerprint p₁ = fingerprint p₂ := by
  intro p₁ p₂ h
  obtain ⟨h1, h2, h3, h4, h5⟩ := h
  suffices hs : serializeParams p₁ = serializeParams p₂ by
    unfold fingerprint
    rw [hs]
  unfold serializeParams
  rw [h1, h2, h3, h4, h5]

/-- Witness for C7's amended claim: two parameter values whose latitudes
differ only below the 4th decimal digit share a fingerprint. -/
theorem fingerprint_same_fields_witness :
    sameKeyFields p7a p7b ∧ fingerprint p7a = fingerprint p7b :=
  ⟨by decide, fingerprint_same_fields p7a p7b (by decide)⟩

set_option maxRecDepth 100000 in
/-- C9 (corrected), counterexample: not every generated key raises a
JSON-decoding error — the key for (lat -89.998, lon -166.2315, 2010-2050,
ssp585) is `"51e45224268765703063645409903164"`, which parses as a JSON
number (`51e45224…` is a numeric literal), so `json.loads` succeeds and
the `params['lon']` subscript raises a `TypeError` instead; still no
remote query is issued. -/
theorem cached_key_json_error_cex :
    fingerprint p9 = "51e45224268765703063645409903164" ∧
    jsonNumberLit "51e45224268765703063645409903164" = true ∧
    (cachedCallOnDigest (fingerprint p9)).1 = PyError.typeError ∧
    PyError.typeError ≠ PyError.jsonDecodeError ∧
    (cachedCallOnDigest (fingerprint p9)).2 = 0 := by
  have hfp : fingerprint p9 = "51e45224268765703063645409903164" := by decide
  refine ⟨hfp, by decide, ?_, by decide, rfl⟩
  rw [hfp]
  decide

/-- C9 (corrected), amended: every generated cache key is a 32-character
hex digest, and feeding it back to `get_point_data_cached` always raises
before any remote query is issued: a `JSONDecodeError` unless the digest
happens to be a JSON number literal, in which case a `TypeError`; the
fingerprinting function and the cached retrieval path are mutually
unusable either way. -/
theorem cached_key_unusable :
    ∀ p : QueryParams,
      isHex32 (fingerprint p) = true ∧
      (cachedCallOnDigest (fingerprint p)).2 = 0 ∧
      ((cachedCallOnDigest (fingerprint p)).1 = PyError.jsonDecodeError ∨
       (cachedCallOnDigest (fingerprint p)).1 = PyError.typeError) := by
  intro p
  refine ⟨md5Hex_isHex32 _, rfl, ?_⟩
  by_cases h : jsonNumberLit (fingerprint p) = true
  · right
    simp [cachedCallOnDigest, h]
  · left
    simp [cachedCallOnDigest, h]

end ClimatePlatform
